import Mathlib

/-!
Verification of the FrameMonkey dual-handle range selector.

The embedded code is the class `DualSlider` in `src/GUI/main.py`, together
with the `MainWindow` slots that interact with it
(`MainWindow.updatePosition` and `MainWindow.handleSliderValueChanged`).

Numeric model: Python floats (Qt pixel coordinates, durations in
milliseconds, seconds values) are modelled as exact rationals, Python ints
as `Int`.  `int(x)` applied to a float truncates toward zero (`pytrunc`);
`x % y` on floats with a positive right operand is `x - y * ⌊x / y⌋`
(`pymod`).  Qt collaborator behaviour that the code relies on is modelled
from the Qt documentation: `QAbstractSlider.setValue` first bounds the new
value to the slider range (here `[0, 1000]`), stores it, and emits a single
`valueChanged` signal if and only if the stored value actually changed;
`blockSignals(True)` suppresses that signal.  QLabel text updates
(`updateTimeLabels`) and painting (`paintEvent`) are rendering-only and
mutate no model state, so they are not part of the state embedding; the
time formatting function they use, `formatTime`, is embedded on its own.
-/

/-- Python `int(q)` on a float: truncation toward zero. -/
def pytrunc (q : ℚ) : ℤ := if 0 ≤ q then ⌊q⌋ else ⌈q⌉

/-- Python `a % b` on floats: the result has the sign of the divisor; for
the positive divisors used here it is `a - b * ⌊a / b⌋`. -/
def pymod (a b : ℚ) : ℚ := a - b * ⌊a / b⌋

/-- State of a `DualSlider` widget, from `DualSlider.__init__`:
the position markers `startPos`, `endPos`, `currentPos` and `duration`,
the interaction flags `isDraggingStart` and `isDraggingEnd`, and the value
stored in the wrapped `QSlider` (range 0..1000). -/
structure DualSlider where
  startPos : ℤ
  endPos : ℤ
  currentPos : ℤ
  sliderValue : ℤ
  duration : ℚ
  isDraggingStart : Bool
  isDraggingEnd : Bool
deriving Repr, DecidableEq

/-- Initial state from `DualSlider.__init__`: `startPos = 0`,
`endPos = 1000`, `currentPos = 0`, `duration = 0`, both drag flags off,
and the `QSlider` starts at value 0. -/
def DualSlider.init : DualSlider :=
  { startPos := 0, endPos := 1000, currentPos := 0, sliderValue := 0,
    duration := 0, isDraggingStart := false, isDraggingEnd := false }

/-- `self.hit_area = 15` (pixels), from `DualSlider.__init__`. -/
def hit_area : ℚ := 15

/-- The minimum tick gap between the two markers.  The source uses the
literal `10` (`self.endPos - 10`, `self.startPos + 10` in
`DualSlider.eventFilter`). -/
def minGapTicks : ℤ := 10

/-- `int(self.startPos * width / 1000)` — marker tick to pixel, from
`DualSlider.eventFilter` (`startPixels` / `endPixels`). -/
def markerPixel (t width : ℤ) : ℤ := pytrunc ((t : ℚ) * width / 1000)

/-- `max(0, min(1000, int((pos * 1000) / width)))` — pointer pixel to
tick (`relativePos` in `DualSlider.eventFilter`, computed identically in
the press and move branches). -/
def relativeTick (pos : ℚ) (width : ℤ) : ℤ :=
  max 0 (min 1000 (pytrunc (pos * 1000 / (width : ℚ))))

/-- Outward notification: `MainWindow.handleSliderValueChanged` calls
`self.player.setPosition(newPosition)` — a seek into the playback
engine. -/
inductive Emit where
  | seek (positionMs : ℤ)
deriving Repr, DecidableEq

/-- `self.slider.setValue(v)` with signals unblocked.  Per Qt,
`QAbstractSlider.setValue` bounds the value to the slider range
`[0, 1000]` and emits `valueChanged` once iff the stored value changed.
The connected slots are `DualSlider.handleSliderValueChanged` (sets
`currentPos` to the new value) and `MainWindow.handleSliderValueChanged`
(if the player duration is positive, seeks to
`int((value * duration) / 1000)`). -/
def setSliderValue (s : DualSlider) (v : ℤ) (playerDurationMs : ℚ) :
    DualSlider × List Emit :=
  let bounded := max 0 (min 1000 v)
  if bounded = s.sliderValue then (s, [])
  else
    let s' := { s with sliderValue := bounded, currentPos := bounded }
    if 0 < playerDurationMs then
      (s', [Emit.seek (pytrunc ((bounded : ℚ) * playerDurationMs / 1000))])
    else (s', [])

/-- The pointer events handled by `DualSlider.eventFilter`. -/
inductive SliderEvent where
  | mousePress (leftButton : Bool) (x : ℚ)
  | mouseMove (x : ℚ)
  | mouseRelease

/-- `DualSlider.eventFilter`, the pointer-event handler installed on the
wrapped slider.  `width` is `self.slider.width()`; `playerDurationMs` is
`self.player.duration()` as read by the connected `MainWindow` slot.
Returns the updated widget state and the list of emitted seeks. -/
def eventFilter (s : DualSlider) (e : SliderEvent) (width : ℤ)
    (playerDurationMs : ℚ) : DualSlider × List Emit :=
  match e with
  | .mousePress leftButton pos =>
      if leftButton then
        if |pos - (markerPixel s.startPos width : ℚ)| < hit_area then
          ({ s with isDraggingStart := true }, [])
        else if |pos - (markerPixel s.endPos width : ℚ)| < hit_area then
          ({ s with isDraggingEnd := true }, [])
        else
          setSliderValue s (relativeTick pos width) playerDurationMs
      else (s, [])
  | .mouseMove pos =>
      if s.isDraggingStart || s.isDraggingEnd then
        if s.isDraggingStart then
          ({ s with startPos := min (s.endPos - 10) (relativeTick pos width) }, [])
        else
          ({ s with endPos := max (s.startPos + 10) (relativeTick pos width) }, [])
      else (s, [])
  | .mouseRelease =>
      ({ s with isDraggingStart := false, isDraggingEnd := false }, [])

/-- `DualSlider.setDuration`: stores the duration and resets
`endPos = 1000`. -/
def setDuration (s : DualSlider) (d : ℚ) : DualSlider :=
  { s with duration := d, endPos := 1000 }

/-- `MainWindow.updatePosition`, the slot connected to the player's
`positionChanged` signal.  When the player duration is positive it
computes `sliderValue = int((position * 1000) / duration)`, stores it in
the slider with signals blocked (so no `valueChanged` slot runs and
nothing is emitted; Qt still bounds the stored value), and assigns the
unbounded value to `currentPos` directly. -/
def updatePosition (s : DualSlider) (positionMs playerDurationMs : ℚ) :
    DualSlider × List Emit :=
  if 0 < playerDurationMs then
    let v := pytrunc (positionMs * 1000 / playerDurationMs)
    ({ s with sliderValue := max 0 (min 1000 v), currentPos := v }, [])
  else (s, [])

/-- `DualSlider.getStartTime`: `startPos * duration / 1000` when
`duration > 0`, else 0. -/
def getStartTime (s : DualSlider) : ℚ :=
  if 0 < s.duration then (s.startPos : ℚ) * s.duration / 1000 else 0

/-- `DualSlider.getEndTime`: `endPos * duration / 1000` when
`duration > 0`, else 0. -/
def getEndTime (s : DualSlider) : ℚ :=
  if 0 < s.duration then (s.endPos : ℚ) * s.duration / 1000 else 0

/-- Python `f"{n:02d}"` for the values produced by `formatTime`: decimal
rendering left-padded with zeros to width two. -/
def format02d (n : ℤ) : String :=
  let s := toString n
  if s.length = 0 then "00" else if s.length = 1 then "0" ++ s else s

/-- `DualSlider.formatTime`: `hours = int(seconds / 3600)`,
`minutes = int((seconds % 3600) / 60)`, `secs = int(seconds % 60)`,
rendered as `f"{hours:02d}:{minutes:02d}:{secs:02d}"`. -/
def formatTime (seconds : ℚ) : String :=
  format02d (pytrunc (seconds / 3600)) ++ ":" ++
    format02d (pytrunc (pymod seconds 3600 / 60)) ++ ":" ++
    format02d (pytrunc (pymod seconds 60))

/-- The states the widget can be in: the initial state followed by any
sequence of pointer events (with positive widget width), duration changes
and playback-position updates. -/
inductive Reachable : DualSlider → Prop where
  | init : Reachable DualSlider.init
  | step (s : DualSlider) (e : SliderEvent) (width : ℤ) (pd : ℚ) :
      Reachable s → 0 < width → Reachable (eventFilter s e width pd).1
  | durationChanged (s : DualSlider) (d : ℚ) :
      Reachable s → Reachable (setDuration s d)
  | positionChanged (s : DualSlider) (p pd : ℚ) :
      Reachable s → Reachable (updatePosition s p pd).1

/-- The inductive marker invariant: both markers stay in range and keep
the 10-tick gap. -/
def GoodState (s : DualSlider) : Prop :=
  0 ≤ s.startPos ∧ s.startPos + 10 ≤ s.endPos ∧ s.endPos ≤ 1000

lemma pytrunc_of_nonneg {q : ℚ} (h : 0 ≤ q) : pytrunc q = ⌊q⌋ := if_pos h

lemma relativeTick_bounds (pos : ℚ) (width : ℤ) :
    0 ≤ relativeTick pos width ∧ relativeTick pos width ≤ 1000 := by
  unfold relativeTick
  omega

lemma setSliderValue_fst_startPos (s : DualSlider) (v : ℤ) (pd : ℚ) :
    (setSliderValue s v pd).1.startPos = s.startPos := by
  rw [setSliderValue]
  dsimp only
  split_ifs <;> rfl

lemma setSliderValue_fst_endPos (s : DualSlider) (v : ℤ) (pd : ℚ) :
    (setSliderValue s v pd).1.endPos = s.endPos := by
  rw [setSliderValue]
  dsimp only
  split_ifs <;> rfl

lemma setSliderValue_fst_isDraggingStart (s : DualSlider) (v : ℤ) (pd : ℚ) :
    (setSliderValue s v pd).1.isDraggingStart = s.isDraggingStart := by
  rw [setSliderValue]
  dsimp only
  split_ifs <;> rfl

lemma setSliderValue_fst_isDraggingEnd (s : DualSlider) (v : ℤ) (pd : ℚ) :
    (setSliderValue s v pd).1.isDraggingEnd = s.isDraggingEnd := by
  rw [setSliderValue]
  dsimp only
  split_ifs <;> rfl

lemma goodState_init : GoodState DualSlider.init := by
  refine ⟨le_refl 0, ?_, le_refl 1000⟩
  norm_num [DualSlider.init]

lemma goodState_eventFilter (s : DualSlider) (e : SliderEvent) (w : ℤ)
    (pd : ℚ) (h : GoodState s) : GoodState (eventFilter s e w pd).1 := by
  obtain ⟨h1, h2, h3⟩ := h
  cases e with
  | mousePress lb pos =>
      dsimp only [eventFilter]
      split_ifs with hlb hs he
      · exact ⟨h1, h2, h3⟩
      · exact ⟨h1, h2, h3⟩
      · exact ⟨by rw [setSliderValue_fst_startPos]; exact h1,
          by rw [setSliderValue_fst_startPos, setSliderValue_fst_endPos]; exact h2,
          by rw [setSliderValue_fst_endPos]; exact h3⟩
      · exact ⟨h1, h2, h3⟩
  | mouseMove pos =>
      have hrel := relativeTick_bounds pos w
      dsimp only [eventFilter]
      split_ifs with hd hds
      · refine ⟨?_, ?_, ?_⟩ <;> dsimp only <;> omega
      · refine ⟨?_, ?_, ?_⟩ <;> dsimp only <;> omega
      · exact ⟨h1, h2, h3⟩
  | mouseRelease => exact ⟨h1, h2, h3⟩

lemma goodState_setDuration (s : DualSlider) (d : ℚ) (h : GoodState s) :
    GoodState (setDuration s d) := by
  obtain ⟨h1, h2, h3⟩ := h
  exact ⟨h1, by dsimp only [setDuration]; omega, le_refl 1000⟩

lemma goodState_updatePosition (s : DualSlider) (p pd : ℚ)
    (h : GoodState s) : GoodState (updatePosition s p pd).1 := by
  obtain ⟨h1, h2, h3⟩ := h
  unfold updatePosition
  split_ifs <;> exact ⟨h1, h2, h3⟩

lemma reachable_goodState {s : DualSlider} (h : Reachable s) : GoodState s := by
  induction h with
  | init => exact goodState_init
  | step s e w pd hr hw ih => exact goodState_eventFilter s e w pd ih
  | durationChanged s d hr ih => exact goodState_setDuration s d ih
  | positionChanged s p pd hr ih => exact goodState_updatePosition s p pd ih

/-- Claim C1: in every reachable state of the slider (initial state
`startPos = 0`, `endPos = 1000`, followed by any sequence of
pointer-down, pointer-move, pointer-up and `setDuration` operations —
and also playback-position updates), the gap invariant
`startPos + minGapTicks ≤ endPos` holds, with `minGapTicks = 10`. -/
theorem gap_invariant (s : DualSlider) (h : Reachable s) :
    s.startPos + minGapTicks ≤ s.endPos :=
  (reachable_goodState h).2.1

theorem gap_invariant_witness :
    DualSlider.init.startPos + minGapTicks ≤ DualSlider.init.endPos :=
  gap_invariant DualSlider.init Reachable.init

lemma pytrunc_eval {q : ℚ} {n : ℤ} (h0 : 0 ≤ n) (h1 : (n : ℚ) ≤ q)
    (h2 : q < n + 1) : pytrunc q = n := by
  have hq : 0 ≤ q := le_trans (by exact_mod_cast h0) h1
  rw [pytrunc_of_nonneg hq]
  exact Int.floor_eq_iff.mpr ⟨h1, h2⟩

/-- Pressing the left button at pixel 0 of a 500-pixel slider: pixel 0 is
within `hit_area` of the start marker's pixel, so the widget enters the
dragging-start mode. -/
def dragStartState : DualSlider :=
  (eventFilter DualSlider.init (.mousePress true 0) 500 0).1

lemma markerPixel_init_start : markerPixel DualSlider.init.startPos 500 = 0 := by
  unfold markerPixel DualSlider.init
  exact pytrunc_eval le_rfl (by norm_num) (by norm_num)

lemma dragStartState_eq :
    dragStartState = { DualSlider.init with isDraggingStart := true } := by
  unfold dragStartState
  dsimp only [eventFilter]
  rw [markerPixel_init_start]
  rw [if_pos (show |(0 : ℚ) - ((0 : ℤ) : ℚ)| < hit_area by norm_num [hit_area])]
  rfl

lemma relativeTick_100_500 : relativeTick 100 500 = 200 := by
  unfold relativeTick
  rw [pytrunc_eval (n := 200) (by norm_num) (by norm_num) (by norm_num)]
  omega

/-- Dragging the pointer to pixel 100 while holding the start marker:
`relativeTick 100 500 = 200`, so `startPos` becomes `min (1000 - 10) 200
= 200`. -/
def draggedState : DualSlider :=
  (eventFilter dragStartState (.mouseMove 100) 500 0).1

lemma draggedState_eq :
    draggedState
      = { DualSlider.init with isDraggingStart := true, startPos := 200 } := by
  unfold draggedState
  rw [dragStartState_eq]
  dsimp only [eventFilter]
  rw [relativeTick_100_500]
  norm_num [DualSlider.init]

lemma reachable_dragStartState : Reachable dragStartState :=
  Reachable.step DualSlider.init (.mousePress true 0) 500 0 Reachable.init
    (by norm_num)

/-- Claim C10: for every prior state and every duration argument,
`setDuration` mutates only the stored duration and the end marker:
`startPos` (and every other field) is unchanged, so no call to
`setDuration` ever resets the start marker to 0. -/
theorem setDuration_frame (s : DualSlider) (d : ℚ) :
    (setDuration s d).startPos = s.startPos ∧
    (setDuration s d).currentPos = s.currentPos ∧
    (setDuration s d).sliderValue = s.sliderValue ∧
    (setDuration s d).isDraggingStart = s.isDraggingStart ∧
    (setDuration s d).isDraggingEnd = s.isDraggingEnd ∧
    (setDuration s d).duration = d ∧
    (setDuration s d).endPos = 1000 :=
  ⟨rfl, rfl, rfl, rfl, rfl, rfl, rfl⟩

/-- Claim C5, counterexample: the widget can reach a state with
`startPos = 200` (grab the start marker, drag to pixel 100 of a 500-pixel
slider); calling `setDuration` there does NOT reset `startPos` to 0 — it
stays 200.  So `setDuration` does not reset both markers to the full
range. -/
theorem setDuration_start_cex :
    (setDuration draggedState 240).startPos = 200 ∧
    ¬ (setDuration draggedState 240).startPos = 0 := by
  have h : (setDuration draggedState 240).startPos = 200 := by
    rw [draggedState_eq]
    rfl
  exact ⟨h, by rw [h]; norm_num⟩

/-- Claim C5 (amended): for every prior state and every duration value,
`setDuration` resets `endPos` to 1000 but leaves `startPos` unchanged (it
is not reset to 0). -/
theorem setDuration_resets_end (s : DualSlider) (d : ℚ) :
    (setDuration s d).endPos = 1000 ∧ (setDuration s d).startPos = s.startPos :=
  ⟨rfl, rfl⟩

/-- Claim C2: in every reachable state, a pointer-move at raw tick
`t = int(pos * 1000 / width)` while dragging the start marker sets
`startPos` to `min (endPos - minGapTicks) t` clamped to `[0, 1000]`, and
the result never exceeds `endPos - minGapTicks`; symmetrically, while
dragging the end marker it sets `endPos` to `max (startPos + minGapTicks)
t` clamped to `[0, 1000]`, never below `startPos + minGapTicks`. -/
theorem dragMove_formula (s : DualSlider) (pos : ℚ) (width : ℤ) (pd : ℚ)
    (h : Reachable s) (_hw : 0 < width) :
    (s.isDraggingStart = true →
      (eventFilter s (.mouseMove pos) width pd).1.startPos
        = min 1000 (max 0 (min (s.endPos - minGapTicks)
            (pytrunc (pos * 1000 / width)))) ∧
      (eventFilter s (.mouseMove pos) width pd).1.startPos
        ≤ s.endPos - minGapTicks) ∧
    (s.isDraggingStart = false → s.isDraggingEnd = true →
      (eventFilter s (.mouseMove pos) width pd).1.endPos
        = min 1000 (max 0 (max (s.startPos + minGapTicks)
            (pytrunc (pos * 1000 / width)))) ∧
      s.startPos + minGapTicks
        ≤ (eventFilter s (.mouseMove pos) width pd).1.endPos) := by
  obtain ⟨h1, h2, h3⟩ := reachable_goodState h
  unfold minGapTicks
  obtain ⟨sp, ep, cp, sv, du, ds, de⟩ := s
  dsimp only at h1 h2 h3
  constructor
  · intro hds
    subst hds
    simp only [eventFilter, Bool.true_or, eq_self_iff_true, if_true]
    unfold relativeTick
    generalize pytrunc (pos * 1000 / (width : ℚ)) = t
    constructor <;> omega
  · intro hds hde
    subst hds
    subst hde
    simp only [eventFilter, Bool.false_or, eq_self_iff_true, if_true,
      Bool.false_eq_true, if_false]
    unfold relativeTick
    generalize pytrunc (pos * 1000 / (width : ℚ)) = t
    constructor <;> omega

theorem dragMove_formula_witness :
    (eventFilter dragStartState (.mouseMove 100) 500 0).1.startPos = 200 := by
  have hflag : dragStartState.isDraggingStart = true := by
    rw [dragStartState_eq]
  have h := ((dragMove_formula dragStartState 100 500 0
    reachable_dragStartState (by norm_num)).1 hflag).1
  rw [h]
  have hend : dragStartState.endPos = 1000 := by
    rw [dragStartState_eq]
    rfl
  rw [hend]
  rw [pytrunc_eval (n := 200) (by norm_num) (by norm_num) (by norm_num)]
  unfold minGapTicks
  omega

lemma floor_intCast_div (a b : ℤ) (hb : 0 < b) :
    ⌊(a : ℚ) / (b : ℚ)⌋ = a / b := by
  obtain ⟨n, rfl⟩ : ∃ n : ℕ, (n : ℤ) = b := ⟨b.toNat, Int.toNat_of_nonneg hb.le⟩
  rw [Int.cast_natCast, Rat.floor_intCast_div_natCast]

lemma pytrunc_intCast_div (a b : ℤ) (ha : 0 ≤ a) (hb : 0 < b) :
    pytrunc ((a : ℚ) / (b : ℚ)) = a / b := by
  have hbq : (0 : ℚ) ≤ (b : ℚ) := by exact_mod_cast hb.le
  rw [pytrunc_of_nonneg (div_nonneg (by exact_mod_cast ha) hbq)]
  exact floor_intCast_div a b hb

/-- Claim C3, counterexample: at pixel `x = 2` with width `w = 3` the code
computes `int(2 * 1000 / 3) = 666` (truncation), while the claimed
formula `clamp(round(x / w * 1000), 0, 1000)` gives `round(666.67) =
667`.  The code truncates; it does not round to nearest. -/
theorem tick_not_rounded_cex :
    ¬ (relativeTick 2 3 = min 1000 (max 0 (round ((2 : ℚ) / 3 * 1000)))) := by
  have h1 : relativeTick 2 3 = 666 := by
    unfold relativeTick
    rw [pytrunc_eval (n := 666) (by norm_num) (by norm_num) (by norm_num)]
    omega
  have h2 : round ((2 : ℚ) / 3 * 1000) = 667 := by
    rw [round_eq]
    exact Int.floor_eq_iff.mpr ⟨by norm_num, by norm_num⟩
  rw [h1, h2]
  omega

/-- Claim C3 (amended): for a nonnegative pixel coordinate `x` and a
positive width `w`, the tick computed from a pointer event equals
`clamp(trunc(x / w * 1000), 0, 1000)` — truncation toward zero (here
equal to floor), not rounding to nearest — and the marker pixel of a tick
`t` is the truncation of `t / 1000 * w`, not exactly `t / 1000 * w`. -/
theorem pixel_tick_mapping (pos : ℚ) (width t : ℤ) (hpos : 0 ≤ pos)
    (hw : 0 < width) (ht : 0 ≤ t) :
    relativeTick pos width = min 1000 (max 0 ⌊pos / (width : ℚ) * 1000⌋) ∧
    markerPixel t width = ⌊(t : ℚ) / 1000 * (width : ℚ)⌋ := by
  have hwq : (0 : ℚ) < (width : ℚ) := by exact_mod_cast hw
  constructor
  · unfold relativeTick
    rw [pytrunc_of_nonneg
      (div_nonneg (mul_nonneg hpos (by norm_num)) hwq.le)]
    rw [show pos * 1000 / (width : ℚ) = pos / (width : ℚ) * 1000 by ring]
    omega
  · unfold markerPixel
    rw [pytrunc_of_nonneg
      (div_nonneg (mul_nonneg (by exact_mod_cast ht) hwq.le) (by norm_num))]
    rw [show (t : ℚ) * (width : ℚ) / 1000 = (t : ℚ) / 1000 * (width : ℚ) by ring]

theorem pixel_tick_mapping_witness :
    relativeTick 2 3 = min 1000 (max 0 ⌊(2 : ℚ) / ((3 : ℤ) : ℚ) * 1000⌋) ∧
    markerPixel 1 3 = ⌊((1 : ℤ) : ℚ) / 1000 * ((3 : ℤ) : ℚ)⌋ :=
  pixel_tick_mapping 2 3 1 (by norm_num) (by norm_num) (by norm_num)

/-- Claim C4, counterexample: at width `w = 1` the pixel of tick 500 is
`int(500 * 1 / 1000) = 0`, and mapping pixel 0 back gives tick 0 — an
error of 500 ticks, far beyond the claimed ±1 tolerance.  The ±1 bound
fails for small widths because both directions truncate. -/
theorem roundtrip_cex :
    ¬ (|relativeTick ((markerPixel 500 1 : ℤ) : ℚ) 1 - 500| ≤ 1) := by
  have h1 : markerPixel 500 1 = 0 := by
    unfold markerPixel
    exact pytrunc_eval le_rfl (by norm_num) (by norm_num)
  rw [h1]
  have h2 : relativeTick ((0 : ℤ) : ℚ) 1 = 0 := by
    unfold relativeTick
    rw [pytrunc_eval (n := 0) le_rfl (by norm_num) (by norm_num)]
    omega
  rw [h2]
  rw [abs_le]
  omega

/-- Claim C4 (amended): for every tick `t ∈ [0, 1000]` and every width
`w ≥ 1000` (at least one pixel per tick), converting `t` to a pixel and
back yields a tick within 1 of `t`, and never above `t`. -/
theorem roundtrip_within_one (t width : ℤ) (ht0 : 0 ≤ t) (ht1 : t ≤ 1000)
    (hw : 1000 ≤ width) :
    |relativeTick ((markerPixel t width : ℤ) : ℚ) width - t| ≤ 1 ∧
    relativeTick ((markerPixel t width : ℤ) : ℚ) width ≤ t := by
  have hwpos : (0 : ℤ) < width := by omega
  have hq0 : 0 ≤ t * width := mul_nonneg ht0 hwpos.le
  have hmp : markerPixel t width = t * width / 1000 := by
    unfold markerPixel
    rw [show (t : ℚ) * (width : ℚ) / 1000
        = ((t * width : ℤ) : ℚ) / (((1000 : ℤ)) : ℚ) by push_cast; ring]
    exact pytrunc_intCast_div _ _ hq0 (by norm_num)
  have hp0 : 0 ≤ t * width / 1000 := Int.ediv_nonneg hq0 (by norm_num)
  have hrt : relativeTick ((t * width / 1000 : ℤ) : ℚ) width
      = max 0 (min 1000 (t * width / 1000 * 1000 / width)) := by
    unfold relativeTick
    rw [show ((t * width / 1000 : ℤ) : ℚ) * 1000 / (width : ℚ)
        = ((t * width / 1000 * 1000 : ℤ) : ℚ) / ((width : ℤ) : ℚ) by
      push_cast; ring]
    rw [pytrunc_intCast_div _ _ (mul_nonneg hp0 (by norm_num)) hwpos]
  rw [hmp, hrt]
  obtain ⟨m, hm⟩ : ∃ m, m = t * width := ⟨_, rfl⟩
  rw [← hm]
  have hdm := Int.ediv_add_emod m 1000
  have hm0 := Int.emod_nonneg m (show (1000 : ℤ) ≠ 0 by norm_num)
  have hm1 := Int.emod_lt_of_pos m (show (0 : ℤ) < 1000 by norm_num)
  have hub : m / 1000 * 1000 / width ≤ t := by
    have h1 : m / 1000 * 1000 ≤ t * width := by rw [← hm]; omega
    calc m / 1000 * 1000 / width ≤ t * width / width :=
          Int.ediv_le_ediv hwpos h1
      _ = t := Int.mul_ediv_cancel t hwpos.ne'
  have hlb : t - 1 ≤ m / 1000 * 1000 / width := by
    have h2 : (t - 1) * width ≤ m / 1000 * 1000 := by
      have hmw : (t - 1) * width = m - width := by rw [hm]; ring
      rw [hmw]
      omega
    calc t - 1 = (t - 1) * width / width :=
          (Int.mul_ediv_cancel _ hwpos.ne').symm
      _ ≤ m / 1000 * 1000 / width := Int.ediv_le_ediv hwpos h2
  generalize m / 1000 * 1000 / width = r at hub hlb
  constructor
  · rw [abs_le]
    constructor <;> omega
  · omega

theorem roundtrip_within_one_witness :
    |relativeTick ((markerPixel 500 1000 : ℤ) : ℚ) 1000 - 500| ≤ 1 ∧
    relativeTick ((markerPixel 500 1000 : ℤ) : ℚ) 1000 ≤ 500 :=
  roundtrip_within_one 500 1000 (by norm_num) (by norm_num) (by norm_num)

/-- Claim C6 (amended): a left pointer-down in `Idle` at least
`hit_area` away from both marker pixels — provided the player duration is
positive and the clicked tick differs from the current slider value —
sets the current position to the clicked tick, leaves both drag flags
unset, and emits exactly one seek. -/
theorem seek_click (s : DualSlider) (pos : ℚ) (width : ℤ) (pd : ℚ)
    (hds : s.isDraggingStart = false) (hde : s.isDraggingEnd = false)
    (hfar1 : hit_area ≤ |pos - (markerPixel s.startPos width : ℚ)|)
    (hfar2 : hit_area ≤ |pos - (markerPixel s.endPos width : ℚ)|)
    (hpd : 0 < pd) (hne : relativeTick pos width ≠ s.sliderValue) :
    (eventFilter s (.mousePress true pos) width pd).1.currentPos
        = relativeTick pos width ∧
    (eventFilter s (.mousePress true pos) width pd).1.sliderValue
        = relativeTick pos width ∧
    (eventFilter s (.mousePress true pos) width pd).1.isDraggingStart = false ∧
    (eventFilter s (.mousePress true pos) width pd).1.isDraggingEnd = false ∧
    (eventFilter s (.mousePress true pos) width pd).2
        = [Emit.seek (pytrunc ((relativeTick pos width : ℚ) * pd / 1000))] := by
  have hb : max 0 (min 1000 (relativeTick pos width)) = relativeTick pos width := by
    have := relativeTick_bounds pos width
    omega
  dsimp only [eventFilter]
  rw [if_pos rfl, if_neg (not_lt.mpr hfar1), if_neg (not_lt.mpr hfar2)]
  rw [setSliderValue]
  dsimp only
  rw [hb, if_neg hne, if_pos hpd]
  exact ⟨rfl, rfl, hds, hde, rfl⟩

lemma markerPixel_init_end_500 : markerPixel DualSlider.init.endPos 500 = 500 := by
  show markerPixel 1000 500 = 500
  unfold markerPixel
  exact pytrunc_eval (by norm_num) (by norm_num) (by norm_num)

lemma markerPixel_init_start_100000 :
    markerPixel DualSlider.init.startPos 100000 = 0 := by
  show markerPixel 0 100000 = 0
  unfold markerPixel
  exact pytrunc_eval le_rfl (by norm_num) (by norm_num)

lemma markerPixel_init_end_100000 :
    markerPixel DualSlider.init.endPos 100000 = 100000 := by
  show markerPixel 1000 100000 = 100000
  unfold markerPixel
  exact pytrunc_eval (by norm_num) (by norm_num) (by norm_num)

lemma relativeTick_250_500 : relativeTick 250 500 = 500 := by
  unfold relativeTick
  rw [pytrunc_eval (n := 500) (by norm_num) (by norm_num) (by norm_num)]
  omega

lemma relativeTick_50_100000 : relativeTick 50 100000 = 0 := by
  unfold relativeTick
  rw [pytrunc_eval (n := 0) le_rfl (by norm_num) (by norm_num)]
  omega

/-- Claim C6, counterexample: two left pointer-downs from the initial
(`Idle`) state, each at least `hit_area` away from both marker pixels,
that emit NO seek at all.  First: at pixel 250, width 500, with player
duration 0 — the connected slot guards on `duration > 0`, so no seek is
issued.  Second: at pixel 50, width 100000, player duration 1000 — the
clicked tick is 0, equal to the slider's current value, so Qt's
`setValue` emits no `valueChanged` and hence no seek. -/
theorem seek_emission_cex :
    (DualSlider.init.isDraggingStart = false ∧
     DualSlider.init.isDraggingEnd = false ∧
     hit_area ≤ |(250 : ℚ) - (markerPixel DualSlider.init.startPos 500 : ℚ)| ∧
     hit_area ≤ |(250 : ℚ) - (markerPixel DualSlider.init.endPos 500 : ℚ)| ∧
     (eventFilter DualSlider.init (.mousePress true 250) 500 0).2 = []) ∧
    (hit_area ≤ |(50 : ℚ) - (markerPixel DualSlider.init.startPos 100000 : ℚ)| ∧
     hit_area ≤ |(50 : ℚ) - (markerPixel DualSlider.init.endPos 100000 : ℚ)| ∧
     (0 : ℚ) < 1000 ∧
     (eventFilter DualSlider.init (.mousePress true 50) 100000 1000).2 = []) := by
  constructor
  · refine ⟨rfl, rfl, ?_, ?_, ?_⟩
    · rw [markerPixel_init_start]
      norm_num [hit_area]
    · rw [markerPixel_init_end_500]
      norm_num [hit_area]
    · dsimp only [eventFilter]
      rw [if_pos rfl]
      rw [markerPixel_init_start, markerPixel_init_end_500]
      rw [if_neg (show ¬(|(250 : ℚ) - ((0 : ℤ) : ℚ)| < hit_area) by
        norm_num [hit_area])]
      rw [if_neg (show ¬(|(250 : ℚ) - ((500 : ℤ) : ℚ)| < hit_area) by
        norm_num [hit_area])]
      rw [relativeTick_250_500]
      rw [setSliderValue]
      dsimp only
      rw [if_neg (show ¬(max 0 (min 1000 (500 : ℤ))
        = DualSlider.init.sliderValue) by decide)]
      rw [if_neg (lt_irrefl (0 : ℚ))]
  · refine ⟨?_, ?_, by norm_num, ?_⟩
    · rw [markerPixel_init_start_100000]
      norm_num [hit_area]
    · rw [markerPixel_init_end_100000]
      norm_num [hit_area]
    · dsimp only [eventFilter]
      rw [if_pos rfl]
      rw [markerPixel_init_start_100000, markerPixel_init_end_100000]
      rw [if_neg (show ¬(|(50 : ℚ) - ((0 : ℤ) : ℚ)| < hit_area) by
        norm_num [hit_area])]
      rw [if_neg (show ¬(|(50 : ℚ) - ((100000 : ℤ) : ℚ)| < hit_area) by
        norm_num [hit_area])]
      rw [relativeTick_50_100000]
      rw [setSliderValue]
      dsimp only
      rw [if_pos (show max 0 (min 1000 (0 : ℤ))
        = DualSlider.init.sliderValue by decide)]

theorem seek_click_witness :
    (eventFilter DualSlider.init (.mousePress true 250) 500 120000).1.currentPos
        = relativeTick 250 500 ∧
    (eventFilter DualSlider.init
        (.mousePress true 250) 500 120000).1.isDraggingStart = false ∧
    (eventFilter DualSlider.init
        (.mousePress true 250) 500 120000).1.isDraggingEnd = false ∧
    (eventFilter DualSlider.init (.mousePress true 250) 500 120000).2
        = [Emit.seek (pytrunc ((relativeTick 250 500 : ℚ) * 120000 / 1000))] := by
  have h := seek_click DualSlider.init 250 500 120000 rfl rfl
    (by rw [markerPixel_init_start]; norm_num [hit_area])
    (by rw [markerPixel_init_end_500]; norm_num [hit_area])
    (by norm_num)
    (by rw [relativeTick_250_500]; decide)
  exact ⟨h.1, h.2.2.1, h.2.2.2.1, h.2.2.2.2⟩

/-- Claim C7: a playback-position update with a positive player duration
changes only the current-position indicator (`currentPos` and the stored
slider value): both markers, the stored duration and the drag flags are
unchanged, and no seek is emitted (the position feed never triggers a
seek back into the player — the slider signals are blocked while the
value is written). -/
theorem position_feed_frame (s : DualSlider) (p pd : ℚ) (hpd : 0 < pd) :
    (updatePosition s p pd).1.startPos = s.startPos ∧
    (updatePosition s p pd).1.endPos = s.endPos ∧
    (updatePosition s p pd).1.duration = s.duration ∧
    (updatePosition s p pd).1.isDraggingStart = s.isDraggingStart ∧
    (updatePosition s p pd).1.isDraggingEnd = s.isDraggingEnd ∧
    (updatePosition s p pd).1.currentPos = pytrunc (p * 1000 / pd) ∧
    (updatePosition s p pd).2 = [] := by
  unfold updatePosition
  rw [if_pos hpd]
  exact ⟨rfl, rfl, rfl, rfl, rfl, rfl, rfl⟩

theorem position_feed_frame_witness :
    (0 : ℚ) < 120000 ∧
    (updatePosition DualSlider.init 60000 120000).2 = [] ∧
    (updatePosition DualSlider.init 60000 120000).1.startPos
      = DualSlider.init.startPos := by
  have h := position_feed_frame DualSlider.init 60000 120000 (by norm_num)
  exact ⟨by norm_num, h.2.2.2.2.2.2, h.1⟩

/-- Claim C8: `getStartTime` returns `startPos / 1000 * duration` and
`getEndTime` returns `endPos / 1000 * duration` when the duration is
positive, and both return 0 when the duration is zero or negative; as
total functions they raise no error. -/
theorem trim_time_accessors (s : DualSlider) :
    (0 < s.duration →
      getStartTime s = (s.startPos : ℚ) / 1000 * s.duration ∧
      getEndTime s = (s.endPos : ℚ) / 1000 * s.duration) ∧
    (s.duration ≤ 0 → getStartTime s = 0 ∧ getEndTime s = 0) := by
  constructor
  · intro h
    unfold getStartTime getEndTime
    rw [if_pos h, if_pos h]
    constructor <;> ring
  · intro h
    unfold getStartTime getEndTime
    rw [if_neg (not_lt.mpr h), if_neg (not_lt.mpr h)]
    exact ⟨rfl, rfl⟩

theorem trim_time_accessors_witness :
    getStartTime (setDuration draggedState 120) = 24 ∧
    getEndTime (setDuration draggedState 120) = 120 := by
  have hd : (setDuration draggedState 120).duration = 120 := rfl
  have hs : (setDuration draggedState 120).startPos = 200 := by
    rw [draggedState_eq]
    rfl
  have he : (setDuration draggedState 120).endPos = 1000 := rfl
  have h := (trim_time_accessors (setDuration draggedState 120)).1
    (by rw [hd]; norm_num)
  rw [h.1, h.2, hd, hs, he]
  norm_num

lemma pymod_nonneg (a b : ℚ) (hb : 0 < b) : 0 ≤ pymod a b := by
  unfold pymod
  have h1 : ((⌊a / b⌋ : ℚ)) ≤ a / b := Int.floor_le _
  have h2 : ((⌊a / b⌋ : ℚ)) * b ≤ a := (le_div_iff₀ hb).mp h1
  linarith

lemma pymod_lt (a b : ℚ) (hb : 0 < b) : pymod a b < b := by
  unfold pymod
  have h1 : a / b < (⌊a / b⌋ : ℚ) + 1 := Int.lt_floor_add_one _
  have h2 : a < ((⌊a / b⌋ : ℚ) + 1) * b := (div_lt_iff₀ hb).mp h1
  nlinarith

/-- Claim C9: for every nonnegative seconds value, `formatTime` renders
`"HH:MM:SS"` by integer truncation toward zero (equal to floor here):
`hours = ⌊seconds / 3600⌋`, `minutes = ⌊(seconds mod 3600) / 60⌋`,
`secs = ⌊seconds mod 60⌋`; in particular `formatTime 3661 = "01:01:01"`,
`formatTime 0 = "00:00:00"` and `formatTime 59.9 = "00:00:59"` (truncation,
not rounding). -/
theorem formatTime_truncates :
    (∀ s : ℚ, 0 ≤ s →
      formatTime s
        = format02d ⌊s / 3600⌋ ++ ":" ++ format02d ⌊pymod s 3600 / 60⌋
            ++ ":" ++ format02d ⌊pymod s 60⌋) ∧
    formatTime 3661 = "01:01:01" ∧
    formatTime 0 = "00:00:00" ∧
    formatTime (599 / 10) = "00:00:59" := by
  have key : ∀ s : ℚ, 0 ≤ s →
      formatTime s
        = format02d ⌊s / 3600⌋ ++ ":" ++ format02d ⌊pymod s 3600 / 60⌋
            ++ ":" ++ format02d ⌊pymod s 60⌋ := by
    intro s hs
    unfold formatTime
    rw [pytrunc_of_nonneg (div_nonneg hs (by norm_num)),
      pytrunc_of_nonneg
        (div_nonneg (pymod_nonneg s 3600 (by norm_num)) (by norm_num)),
      pytrunc_of_nonneg (pymod_nonneg s 60 (by norm_num))]
  refine ⟨key, ?_, ?_, ?_⟩
  · rw [key 3661 (by norm_num)]
    have hf1 : ⌊(3661 : ℚ) / 3600⌋ = 1 :=
      Int.floor_eq_iff.mpr ⟨by norm_num, by norm_num⟩
    have hm1 : pymod 3661 3600 = 61 := by
      unfold pymod
      rw [hf1]
      norm_num
    have hf3 : ⌊(3661 : ℚ) / 60⌋ = 61 :=
      Int.floor_eq_iff.mpr ⟨by norm_num, by norm_num⟩
    have hm2 : pymod 3661 60 = 1 := by
      unfold pymod
      rw [hf3]
      norm_num
    rw [hf1, hm1, hm2]
    have hf2 : ⌊(61 : ℚ) / 60⌋ = 1 :=
      Int.floor_eq_iff.mpr ⟨by norm_num, by norm_num⟩
    rw [hf2, show ⌊(1 : ℚ)⌋ = 1 from Int.floor_one]
    rfl
  · rw [key 0 le_rfl]
    have hm1 : pymod 0 3600 = 0 := by
      unfold pymod
      norm_num
    have hm2 : pymod 0 60 = 0 := by
      unfold pymod
      norm_num
    rw [hm1, hm2]
    norm_num
    rfl
  · rw [key (599 / 10) (by norm_num)]
    have hf1 : ⌊(599 : ℚ) / 10 / 3600⌋ = 0 :=
      Int.floor_eq_iff.mpr ⟨by norm_num, by norm_num⟩
    have hf2 : ⌊(599 : ℚ) / 10 / 60⌋ = 0 :=
      Int.floor_eq_iff.mpr ⟨by norm_num, by norm_num⟩
    have hf3 : ⌊(599 : ℚ) / 10⌋ = 59 :=
      Int.floor_eq_iff.mpr ⟨by norm_num, by norm_num⟩
    have hm1 : pymod ((599 : ℚ) / 10) 3600 = 599 / 10 := by
      unfold pymod
      rw [hf1]
      norm_num
    have hm2 : pymod ((599 : ℚ) / 10) 60 = 599 / 10 := by
      unfold pymod
      rw [hf2]
      norm_num
    rw [hm1, hm2, hf1, hf2, hf3]
    rfl

theorem formatTime_truncates_witness :
    (0 : ℚ) ≤ 3661 ∧
    formatTime 3661
      = format02d ⌊(3661 : ℚ) / 3600⌋ ++ ":"
          ++ format02d ⌊pymod 3661 3600 / 60⌋ ++ ":"
          ++ format02d ⌊pymod 3661 60⌋ :=
  ⟨by norm_num, formatTime_truncates.1 3661 (by norm_num)⟩
